import Mathlib

/-!
Verification of the zenity repository against its specification.

Shallow embedding of the Go sources:
* `internal/zenutil/run_darwin.go` — the scripting-bridge runner `zenutil.Run`;
* `cmd/zenity/main.go` — the CLI result helpers (`errResult`, `strResult`,
  `strOKResult`, `okResult`, `listResult`), the `--column` accumulator
  `addColumn`, and the flag-defaulting / option-building logic `loadFlags`;
* `pwd_unix.go` — the credential dialog's output decoding.

Machine strings are modelled as Lean `String` / `List Char`; Go `error`
values are modelled as `Option` of a payload type; process-level effects
(spawning, exec-replacement, exit codes, stream writes) are reified as
explicit outcome values.
-/

namespace Zenity

/-! ## The scripting-bridge runner (`internal/zenutil/run_darwin.go`) -/

/-- The value `ctx.Err()` reports once a Go `context.Context` has fired:
`context.Canceled` for explicit cancellation or `context.DeadlineExceeded`
for an elapsed timeout. -/
inductive CtxErr
  | canceled
  | deadlineExceeded
  deriving DecidableEq, Repr

/-- A Go `context.Context` as observed by `zenutil.Run`: the only observation
the code makes is the single `ctx.Err()` call right after the child process
finishes, so the model records the value that observation returns
(`none` when the context has not fired by that point). -/
structure Ctx where
  fired : Option CtxErr
  deriving DecidableEq, Repr

/-- The errors `zenutil.Run` can return: a template rendering error
(from `scripts.ExecuteTemplate`), an error of the child process itself
(from `cmd.Output()`), or a context cancellation/timeout error
(from `ctx.Err()`). The three are distinct constructors, so a context
error is distinguishable from a process error. -/
inductive RunErr
  | render (msg : String)
  | proc (msg : String)
  | ctx (e : CtxErr)
  deriving DecidableEq, Repr

/-- One spawned (or exec-replaced-into) backend process: its argument
vector and the text supplied on its standard input. -/
structure Spawn where
  argv : List String
  stdin : String
  deriving DecidableEq, Repr

/-- The environment of one `zenutil.Run` call: the result of rendering the
script template, the package variable `zenutil.Command`, whether every step
of the `syscall.Exec` fast path (`LookPath`, `TempFile`, `Remove`,
`WriteString`, `Seek`, `Dup2`, `Stderr.Close` and `Exec` itself) succeeds,
and — when a child process is run — the bytes it writes to stdout and the
error `cmd.Output()` reports for it, if any. -/
structure RunEnv where
  renderResult : Except String String
  command : Bool
  execOk : Bool
  procOut : String
  procErr : Option String
  deriving Repr

/-- The observable outcome of `zenutil.Run`: the calling process image was
replaced by the backend (`syscall.Exec`, which never returns); or a child
process was spawned and the call returned its output and an optional error;
or the call returned an error before any backend was started. -/
inductive RunOutcome
  | execReplaced (s : Spawn)
  | completed (s : Spawn) (out : String) (err : Option RunErr)
  | failed (e : RunErr)
  deriving DecidableEq, Repr

/-- The backend process started by a `RunOutcome`, if any. -/
def RunOutcome.spawnOf : RunOutcome → Option Spawn
  | .execReplaced s => some s
  | .completed s _ _ => some s
  | .failed _ => none

/-- The fixed argument vector of the script host: `osascript -l JavaScript`,
used both by the `syscall.Exec` fast path and by `exec.Command`. -/
def osascriptArgv : List String := ["osascript", "-l", "JavaScript"]

/-- Model of `zenutil.Run` (run_darwin.go). Renders the script template;
on a render error returns immediately. In command mode, attempts the
`syscall.Exec` fast path (replacing the process image) whenever all its
steps succeed — the code does not consult `ctx` before this block.
Otherwise spawns `osascript` with the script on stdin; with a non-nil
context the error from `cmd.Output()` is overridden by `ctx.Err()`
whenever the latter is non-nil at the observation point. -/
def Run (ctx : Option Ctx) (env : RunEnv) : RunOutcome :=
  match env.renderResult with
  | .error e => .failed (.render e)
  | .ok script =>
    if env.command && env.execOk then
      .execReplaced ⟨osascriptArgv, script⟩
    else
      match ctx with
      | some c =>
        let err : Option RunErr :=
          match c.fired with
          | some ce => some (.ctx ce)
          | none => env.procErr.map RunErr.proc
        .completed ⟨osascriptArgv, script⟩ env.procOut err
      | none => .completed ⟨osascriptArgv, script⟩ env.procOut (env.procErr.map RunErr.proc)

/-- C1: for a `zenutil.Run` invocation with a non-nil context that actually
runs a child and returns: if the context has not fired by the time the
process has exited and its output been collected, the process's own result
(output and error, success included) is returned unchanged; once the context
has fired, the returned error is the context's cancellation/timeout error,
which is distinguishable from any process error. -/
theorem run_ctx_race (env : RunEnv) (c : Ctx) (s : String) (sp : Spawn)
    (out : String) (err : Option RunErr)
    (hr : env.renderResult = Except.ok s)
    (hc : Run (some c) env = RunOutcome.completed sp out err) :
    (c.fired = none → out = env.procOut ∧ err = env.procErr.map RunErr.proc) ∧
    (∀ ce, c.fired = some ce → err = some (RunErr.ctx ce) ∧
      ∀ m, RunErr.ctx ce ≠ RunErr.proc m) := by
  unfold Run at hc
  rw [hr] at hc
  by_cases h : (env.command && env.execOk) = true
  · simp [h] at hc
  · simp only [h, if_false, Bool.not_eq_true] at hc
    constructor
    · intro hf
      rw [hf] at hc
      exact ⟨(RunOutcome.completed.injEq _ _ _ _ _ _ ▸ hc).2.1.symm,
             (RunOutcome.completed.injEq _ _ _ _ _ _ ▸ hc).2.2.symm⟩
    · intro ce hf
      rw [hf] at hc
      refine ⟨(RunOutcome.completed.injEq _ _ _ _ _ _ ▸ hc).2.2.symm, ?_⟩
      intro m hne
      cases hne

/-- Witness for C1: a concrete run whose context has fired with
`canceled`; the returned error is the context error. -/
theorem run_ctx_race_witness :
    Run (some ⟨some CtxErr.canceled⟩) ⟨Except.ok "x", false, false, "out", some "exit 1"⟩
      = RunOutcome.completed ⟨osascriptArgv, "x"⟩ "out" (some (RunErr.ctx CtxErr.canceled)) ∧
    some (RunErr.ctx CtxErr.canceled) = some (RunErr.ctx CtxErr.canceled) :=
  ⟨rfl,
   ((run_ctx_race ⟨Except.ok "x", false, false, "out", some "exit 1"⟩
      ⟨some CtxErr.canceled⟩ "x" ⟨osascriptArgv, "x"⟩ "out"
      (some (RunErr.ctx CtxErr.canceled)) rfl rfl).2 CtxErr.canceled rfl).1⟩

/-- C2 counterexample: in command mode with every exec precondition
succeeding, the exec-replace path is taken even though a cancellation
context is present (here one that has already fired with a deadline error) —
refuting the claim that the path is skipped whenever a context is present. -/
theorem run_exec_with_ctx_cex :
    Run (some ⟨some CtxErr.deadlineExceeded⟩) ⟨Except.ok "body", true, true, "", none⟩
      = RunOutcome.execReplaced ⟨osascriptArgv, "body"⟩ := rfl

/-- C2 (amended): after a successful template render, the exec-replace fast
path is taken exactly when command mode is set and all its preconditions
succeed — independent of whether a cancellation context is configured. -/
theorem run_exec_iff_command (ctx : Option Ctx) (env : RunEnv) (s : String)
    (hr : env.renderResult = Except.ok s) :
    Run ctx env = RunOutcome.execReplaced ⟨osascriptArgv, s⟩ ↔
      (env.command = true ∧ env.execOk = true) := by
  unfold Run
  rw [hr]
  by_cases h : (env.command && env.execOk) = true
  · simp only [h, if_true]
    simp [Bool.and_eq_true] at h
    simp [h]
  · simp only [h, if_false]
    constructor
    · intro hc
      cases ctx <;> simp at hc
    · intro hc
      simp [Bool.and_eq_true, hc.1, hc.2] at h

/-- Witness for C2's amended theorem: with command mode on and exec
preconditions met, the outcome is exec-replacement. -/
theorem run_exec_iff_command_witness :
    Run (none : Option Ctx) ⟨Except.ok "s", true, true, "", none⟩
      = RunOutcome.execReplaced ⟨osascriptArgv, "s"⟩ :=
  (run_exec_iff_command none ⟨Except.ok "s", true, true, "", none⟩ "s" rfl).mpr ⟨rfl, rfl⟩

/-- C7: whenever the template renders, every backend process started by
`zenutil.Run` — exec-replaced or spawned, with or without a context —
receives the fixed argument vector `osascript -l JavaScript` and the
rendered script body on its standard input, never as an argument. -/
theorem run_fixed_argv_stdin (ctx : Option Ctx) (env : RunEnv) (s : String)
    (hr : env.renderResult = Except.ok s) :
    (Run ctx env).spawnOf = some ⟨osascriptArgv, s⟩ := by
  unfold Run
  rw [hr]
  by_cases h : (env.command && env.execOk) = true
  · simp [h, RunOutcome.spawnOf]
  · cases ctx <;> simp [h, RunOutcome.spawnOf]

/-- Witness for C7: a concrete spawned run carries the fixed argv and the
script on stdin. -/
theorem run_fixed_argv_stdin_witness :
    (Run (none : Option Ctx) ⟨Except.ok "hello", false, false, "o", none⟩).spawnOf
      = some ⟨osascriptArgv, "hello"⟩ :=
  run_fixed_argv_stdin none ⟨Except.ok "hello", false, false, "o", none⟩ "hello" rfl

/-- C8: if rendering the script template fails, `zenutil.Run` returns the
render error immediately: the outcome is `failed` (so no process is spawned
and no exec-replace happens — its `spawnOf` is `none`). -/
theorem run_render_error (ctx : Option Ctx) (env : RunEnv) (e : String)
    (hr : env.renderResult = Except.error e) :
    Run ctx env = RunOutcome.failed (RunErr.render e) ∧
    (Run ctx env).spawnOf = none := by
  unfold Run
  rw [hr]
  exact ⟨rfl, rfl⟩

/-- Witness for C8: a concrete failing render produces `failed` and no
spawn, even in command mode with a context. -/
theorem run_render_error_witness :
    Run (some ⟨none⟩) ⟨Except.error "bad template", true, true, "", none⟩
      = RunOutcome.failed (RunErr.render "bad template") ∧
    (Run (some ⟨none⟩) ⟨Except.error "bad template", true, true, "", none⟩).spawnOf = none :=
  run_render_error (some ⟨none⟩) ⟨Except.error "bad template", true, true, "", none⟩
    "bad template" rfl

/-! ## CLI result helpers (`cmd/zenity/main.go`) -/

/-- Classification of the error value reaching the CLI result helpers:
a timeout error (recognised by `os.IsTimeout`), the sentinel
`zenity.ErrExtraButton`, or any other error with its message. -/
inductive CliError
  | timeout
  | extraButton
  | other (msg : String)
  deriving DecidableEq, Repr

/-- The observable effect of one CLI result helper: the process exit code
passed to `os.Exit`, and what was written to stdout and stderr beforehand. -/
structure CliExit where
  code : Int
  stdout : String
  stderr : String
  deriving DecidableEq, Repr

/-- Model of `errResult` (main.go): timeout exits 5; the extra-button
sentinel prints the extra-button label and a line break to stdout and
exits 1; any other error prints its message and a line break to stderr and
exits -1; a nil error exits 0. `extraBtn` is the global `extraButton` flag
value and `lineBreak` is `zenutil.LineBreak`. -/
def errResult (extraBtn lineBreak : String) : Option CliError → CliExit
  | some .timeout => ⟨5, "", ""⟩
  | some .extraButton => ⟨1, extraBtn ++ lineBreak, ""⟩
  | some (.other msg) => ⟨-1, "", msg ++ lineBreak⟩
  | none => ⟨0, "", ""⟩

/-- Model of `okResult` (main.go): errors are delegated to `errResult`;
otherwise `ok` exits 0 and `!ok` exits 1. -/
def okResult (extraBtn lineBreak : String) (ok : Bool) (err : Option CliError) : CliExit :=
  match err with
  | some e => errResult extraBtn lineBreak (some e)
  | none => if ok then ⟨0, "", ""⟩ else ⟨1, "", ""⟩

/-- Model of `strResult` (main.go): errors are delegated to `errResult`;
an empty string (no selection) exits 1; otherwise the value and a line
break go to stdout and the process exits 0. -/
def strResult (extraBtn lineBreak : String) (s : String) (err : Option CliError) : CliExit :=
  match err with
  | some e => errResult extraBtn lineBreak (some e)
  | none => if s = "" then ⟨1, "", ""⟩ else ⟨0, s ++ lineBreak, ""⟩

/-- Model of `strOKResult` (main.go): errors are delegated to `errResult`;
`!ok` (no selection) exits 1; otherwise the value and a line break go to
stdout and the process exits 0. -/
def strOKResult (extraBtn lineBreak : String) (s : String) (ok : Bool)
    (err : Option CliError) : CliExit :=
  match err with
  | some e => errResult extraBtn lineBreak (some e)
  | none => if ok then ⟨0, s ++ lineBreak, ""⟩ else ⟨1, "", ""⟩

/-- Model of `listResult` (main.go): errors are delegated to `errResult`;
a nil slice (no selection) exits 1; otherwise the items joined with
`zenutil.Separator` and a line break go to stdout and the process exits 0. -/
def listResult (extraBtn lineBreak separator : String) (l : Option (List String))
    (err : Option CliError) : CliExit :=
  match err with
  | some e => errResult extraBtn lineBreak (some e)
  | none =>
    match l with
    | none => ⟨1, "", ""⟩
    | some items => ⟨0, String.intercalate separator items ++ lineBreak, ""⟩

/-- C4 counterexample: the extra-button outcome and the no-selection
outcome produce the same exit code (both 1), so the four terminal outcomes
do not map to pairwise distinct exit codes as claimed. -/
theorem exit_codes_cex :
    (errResult "Later" "\n" (some CliError.extraButton)).code
      = (strResult "Later" "\n" "" none).code := rfl

/-- C4 (amended): timeout exits 5 (silently), generic failure exits -1 with
the message on stderr, extra-button exits 1 with the label on stdout, and
no-selection also exits 1 — extra-button and no-selection share exit code 1
and are distinguished only by the stdout payload; every successful value —
a non-empty string from `strResult`, any confirmed string from
`strOKResult`, a selected item list joined with the separator from
`listResult` — goes to stdout followed by the line terminator; codes 5, -1
and 1 are pairwise distinct. -/
theorem exit_codes_amended (eb lb msg s sepr : String) (items : List String) (hs : s ≠ "") :
    errResult eb lb (some CliError.timeout) = ⟨5, "", ""⟩ ∧
    errResult eb lb (some (CliError.other msg)) = ⟨-1, "", msg ++ lb⟩ ∧
    errResult eb lb (some CliError.extraButton) = ⟨1, eb ++ lb, ""⟩ ∧
    strResult eb lb "" none = ⟨1, "", ""⟩ ∧
    strOKResult eb lb s false none = ⟨1, "", ""⟩ ∧
    listResult eb lb sepr none none = ⟨1, "", ""⟩ ∧
    strResult eb lb s none = ⟨0, s ++ lb, ""⟩ ∧
    strOKResult eb lb s true none = ⟨0, s ++ lb, ""⟩ ∧
    listResult eb lb sepr (some items) none
      = ⟨0, String.intercalate sepr items ++ lb, ""⟩ ∧
    ((5 : Int) ≠ -1 ∧ (5 : Int) ≠ 1 ∧ (-1 : Int) ≠ 1) := by
  refine ⟨rfl, rfl, rfl, rfl, rfl, rfl, ?_, rfl, rfl, by norm_num⟩
  simp [strResult, hs]

/-- Witness for C4's amended theorem at concrete inputs: the success
branches of `strResult` and `strOKResult` print the value and terminator. -/
theorem exit_codes_amended_witness :
    strResult "Later" "\n" "ok" none = ⟨0, "ok\n", ""⟩ ∧
    strOKResult "Later" "\n" "ok" true none = ⟨0, "ok\n", ""⟩ :=
  ⟨(exit_codes_amended "Later" "\n" "boom" "ok" "|" ["a", "b"] (by decide)).2.2.2.2.2.2.1,
   (exit_codes_amended "Later" "\n" "boom" "ok" "|" ["a", "b"] (by decide)).2.2.2.2.2.2.2.1⟩

/-! ## The `--column` accumulator (`cmd/zenity/main.go`) -/

/-- Model of `addColumn` (main.go): increments the global `columns`
counter; returns no error while the counter is still at most 1, and the
error `multiple columns not supported` afterwards. Takes and returns the
counter explicitly. -/
def addColumn (columns : Nat) : Nat × Option String :=
  let columns := columns + 1
  if columns ≤ 1 then (columns, none)
  else (columns, some "multiple columns not supported")

/-- Iterates `addColumn` over the values of successive `--column` flags,
threading the counter and collecting each call's result in order. -/
def addColumns : List String → Nat → Nat × List (Option String)
  | [], columns => (columns, [])
  | _ :: rest, columns =>
    let r := addColumn columns
    let t := addColumns rest r.1
    (t.1, r.2 :: t.2)

/-- Helper: the results of iterated `addColumn` calls starting from
counter `c` — the i-th call fails unless `c + i = 0`. -/
theorem addColumns_spec (cols : List String) (c : Nat) :
    (addColumns cols c).2 = (List.range cols.length).map
      (fun i => if c + i = 0 then none else some "multiple columns not supported") := by
  induction cols generalizing c with
  | nil => rfl
  | cons x rest ih =>
    have h0 : (addColumn c).1 = c + 1 := by
      by_cases hc : c + 1 ≤ 1 <;> simp [addColumn, hc]
    show (addColumn c).2 :: (addColumns rest (addColumn c).1).2 = _
    rw [h0, ih, List.length_cons, List.range_succ_eq_map, List.map_cons, List.map_map]
    congr 1
    · by_cases hc : c = 0 <;> simp [addColumn, hc]
    · refine List.map_congr_left ?_
      intro i _
      simp only [Function.comp_apply]
      have h1 : c + 1 + i ≠ 0 := by omega
      have h2 : c + Nat.succ i ≠ 0 := by omega
      simp [h1, h2]

/-- C3: processing any sequence of `--column` flags from the initial
counter, the first addition succeeds (no error) and every subsequent
addition returns the `multiple columns not supported` error — more than
one column is rejected explicitly, not silently truncated. -/
theorem addColumn_first_only (cols : List String) :
    (addColumns cols 0).2 = (List.range cols.length).map
      (fun i => if i = 0 then none else some "multiple columns not supported") := by
  rw [addColumns_spec]
  refine List.map_congr_left ?_
  intro i _
  simp

/-! ## Flag defaulting and option building (`cmd/zenity/main.go`, `loadFlags`) -/

/-- The sentinel written into the string flag variables before parsing, so
that an explicitly set value — the empty string included — can be told
apart from an unset one (`const unspecified = "\x00"` in main.go). -/
def unspecified : String := "\x00"

/-- The dialog selected by the application-option booleans of main.go
(after `validateFlags` has ensured exactly one is set). -/
inductive DialogKind
  | errorDlg
  | infoDlg
  | warningDlg
  | questionDlg
  | entryDlg
  | listDlg
  | passwordDlg
  | fileSelectionDlg
  | colorSelectionDlg
  | notification
  deriving DecidableEq, Repr

/-- The flag variables of main.go read by the defaulting switch and the
General-options section of `loadFlags`, as they stand after `flag.Parse`:
each string field is either the `unspecified` sentinel or the value the
user passed (possibly empty). -/
structure Flags where
  kind : DialogKind
  title : String
  okLabel : String
  cancelLabel : String
  extraButton : String
  text : String
  icon : String
  width : Nat
  height : Nat
  deriving DecidableEq, Repr

/-- Model of the local `setDefault` closure in `loadFlags`: replace the
value by the default only when it is still the sentinel. -/
def setDefault (s d : String) : String := if s = unspecified then d else s

/-- Model of the per-dialog defaulting switch at the top of `loadFlags`
(main.go): each dialog kind fills in its own defaults for whichever of
title, icon, text, OK and Cancel labels it covers; the default case
(file selection, color selection, notification) only defaults `text`
to the empty string. -/
def applyDefaults (f : Flags) : Flags :=
  match f.kind with
  | .errorDlg =>
    { f with title := setDefault f.title "Error", icon := setDefault f.icon "dialog-error",
             text := setDefault f.text "An error has occurred.",
             okLabel := setDefault f.okLabel "OK" }
  | .infoDlg =>
    { f with title := setDefault f.title "Information",
             icon := setDefault f.icon "dialog-information",
             text := setDefault f.text "All updates are complete.",
             okLabel := setDefault f.okLabel "OK" }
  | .warningDlg =>
    { f with title := setDefault f.title "Warning", icon := setDefault f.icon "dialog-warning",
             text := setDefault f.text "Are you sure you want to proceed?",
             okLabel := setDefault f.okLabel "OK" }
  | .questionDlg =>
    { f with title := setDefault f.title "Question",
             icon := setDefault f.icon "dialog-question",
             text := setDefault f.text "Are you sure you want to proceed?",
             okLabel := setDefault f.okLabel "Yes",
             cancelLabel := setDefault f.cancelLabel "No" }
  | .entryDlg =>
    { f with title := setDefault f.title "Add a new entry",
             text := setDefault f.text "Enter new text:",
             okLabel := setDefault f.okLabel "OK",
             cancelLabel := setDefault f.cancelLabel "Cancel" }
  | .listDlg =>
    { f with title := setDefault f.title "Select items from the list",
             text := setDefault f.text "Select items from the list below:",
             okLabel := setDefault f.okLabel "OK",
             cancelLabel := setDefault f.cancelLabel "Cancel" }
  | .passwordDlg =>
    { f with title := setDefault f.title "Type your password",
             icon := setDefault f.icon "dialog-password",
             okLabel := setDefault f.okLabel "OK",
             cancelLabel := setDefault f.cancelLabel "Cancel" }
  | _ => { f with text := setDefault f.text "" }

/-- The `zenity.DialogIcon` values named in main.go. The Go variable `ico`
is declared with the type's zero value before the `switch`; the named
constants live in the zenity library, which is outside `src/`, so the zero
value is modelled as the distinct `zeroValue` constructor rather than
identified with any particular named constant. -/
inductive DialogIcon
  | zeroValue
  | errorIcon
  | infoIcon
  | questionIcon
  | warningIcon
  | passwordIcon
  | noIcon
  deriving DecidableEq, Repr

/-- Model of the `switch icon` statement in `loadFlags`: the recognised
icon names map to their constants, the empty string maps to `NoIcon`, and
any other value — the `unspecified` sentinel included — leaves `ico` at
the zero value. -/
def iconFromString (icon : String) : DialogIcon :=
  if icon = "error" ∨ icon = "dialog-error" then .errorIcon
  else if icon = "info" ∨ icon = "dialog-information" then .infoIcon
  else if icon = "question" ∨ icon = "dialog-question" then .questionIcon
  else if icon = "important" ∨ icon = "warning" ∨ icon = "dialog-warning" then .warningIcon
  else if icon = "dialog-password" then .passwordIcon
  else if icon = "" then .noIcon
  else .zeroValue

/-- The zenity options appended by the General-options section of
`loadFlags` (the library's option constructors are outside `src/`; only
which option is appended, and with which payload, is modelled). -/
inductive ZOption
  | title (s : String)
  | width (n : Nat)
  | height (n : Nat)
  | okLabel (s : String)
  | cancelLabel (s : String)
  | extraButton (s : String)
  | icon (i : DialogIcon)
  deriving DecidableEq, Repr

/-- Model of `loadFlags` (main.go) up to and including the icon option:
after defaulting, title / OK label / Cancel label / extra-button label are
appended only when they differ from the sentinel, width and height are
appended unconditionally, and the icon option is appended unconditionally
with the value the icon switch produced. The later sections of `loadFlags`
(message, entry, list, file-selection and color options) never consult the
sentinel and are not modelled. -/
def loadFlags (f : Flags) : List ZOption :=
  let g := applyDefaults f
  let opts : List ZOption := []
  let opts := if g.title ≠ unspecified then opts ++ [ZOption.title g.title] else opts
  let opts := opts ++ [ZOption.width g.width, ZOption.height g.height]
  let opts := if g.okLabel ≠ unspecified then opts ++ [ZOption.okLabel g.okLabel] else opts
  let opts := if g.cancelLabel ≠ unspecified then opts ++ [ZOption.cancelLabel g.cancelLabel]
              else opts
  let opts := if g.extraButton ≠ unspecified then opts ++ [ZOption.extraButton g.extraButton]
              else opts
  opts ++ [ZOption.icon (iconFromString g.icon)]

/-- An entry dialog invocation with every sentinel flag left unset. -/
def entryFlagsUnset : Flags :=
  ⟨.entryDlg, unspecified, unspecified, unspecified, unspecified, unspecified, unspecified, 0, 0⟩

/-- An entry dialog invocation with the title set to `T` and the OK label
explicitly set to the empty string. -/
def entryFlagsSet : Flags :=
  ⟨.entryDlg, "T", "", unspecified, unspecified, unspecified, unspecified, 0, 0⟩

/-- C5 counterexample: for an entry dialog the defaulting switch does not
touch the icon, so the icon flag is still the `unspecified` sentinel after
defaulting — yet the built option list is not missing the icon option: it
contains one (carrying the zero icon value). The claimed omit-when-sentinel
rule therefore fails for the icon option. -/
theorem loadFlags_icon_cex :
    (applyDefaults entryFlagsUnset).icon = unspecified ∧
    ZOption.icon DialogIcon.zeroValue ∈ loadFlags entryFlagsUnset := by
  constructor
  · rfl
  · decide

/-- C5 (amended): for the title and the OK / Cancel / extra-button labels,
the option is omitted exactly when the field still equals the sentinel
after defaulting, and otherwise the option carries the field's exact value
(the empty string included); the icon option, by contrast, is always
appended — with the sentinel or an unrecognised name mapped to the zero
icon value — and the dialog text is not subject to the omission mechanism
at all (it is passed positionally, not as an option). -/
theorem loadFlags_sentinel_amended (f : Flags) :
    ((applyDefaults f).title = unspecified → ∀ s, ZOption.title s ∉ loadFlags f) ∧
    ((applyDefaults f).title ≠ unspecified → ZOption.title (applyDefaults f).title ∈ loadFlags f) ∧
    ((applyDefaults f).okLabel = unspecified → ∀ s, ZOption.okLabel s ∉ loadFlags f) ∧
    ((applyDefaults f).okLabel ≠ unspecified →
      ZOption.okLabel (applyDefaults f).okLabel ∈ loadFlags f) ∧
    ((applyDefaults f).cancelLabel = unspecified → ∀ s, ZOption.cancelLabel s ∉ loadFlags f) ∧
    ((applyDefaults f).cancelLabel ≠ unspecified →
      ZOption.cancelLabel (applyDefaults f).cancelLabel ∈ loadFlags f) ∧
    ((applyDefaults f).extraButton = unspecified → ∀ s, ZOption.extraButton s ∉ loadFlags f) ∧
    ((applyDefaults f).extraButton ≠ unspecified →
      ZOption.extraButton (applyDefaults f).extraButton ∈ loadFlags f) ∧
    ZOption.icon (iconFromString (applyDefaults f).icon) ∈ loadFlags f := by
  unfold loadFlags
  by_cases h1 : (applyDefaults f).title = unspecified <;>
    by_cases h2 : (applyDefaults f).okLabel = unspecified <;>
      by_cases h3 : (applyDefaults f).cancelLabel = unspecified <;>
        by_cases h4 : (applyDefaults f).extraButton = unspecified <;>
          simp [h1, h2, h3, h4]

/-- Witness for C5's amended theorem: with the title set to `T` and the OK
label explicitly set to the empty string, both options appear with those
exact values. -/
theorem loadFlags_sentinel_amended_witness :
    ZOption.title (applyDefaults entryFlagsSet).title ∈ loadFlags entryFlagsSet ∧
    ZOption.okLabel (applyDefaults entryFlagsSet).okLabel ∈ loadFlags entryFlagsSet :=
  ⟨(loadFlags_sentinel_amended entryFlagsSet).2.1 (by decide),
   (loadFlags_sentinel_amended entryFlagsSet).2.2.2.1 (by decide)⟩

/-! ## Credential dialog output decoding (`pwd_unix.go`) -/

/-- The triple produced by the zenity library's result parser `strResult`
for the password dialog: the decoded string value, the ok flag, and an
optional error. -/
structure StrRes where
  str : List Char
  ok : Bool
  err : Option String
  deriving DecidableEq, Repr

/-- Modelled from the spec: the zenity library's `strResult` result parser
is not under `src/`; per the spec, an exit status of success with a payload
decodes to the plain string value, with ok true and no error. -/
def strResultSpec (payload : List Char) : StrRes := ⟨payload, true, none⟩

/-- Model of `strings.SplitN(s, sep, 2)` at the character level: `none`
when the separator does not occur (Go returns the one-element slice `[s]`),
and otherwise the pair of the text before the first separator and
everything after it. -/
def splitOnce (sep : Char) : List Char → Option (List Char × List Char)
  | [] => none
  | c :: cs =>
    if c = sep then some ([], cs)
    else
      match splitOnce sep cs with
      | some (u, v) => some (c :: u, v)
      | none => none

/-- Model of `password` (pwd_unix.go) after the backend has run,
parameterised by the raw output `out` and the triple `r` the library's
`strResult` produced from it: when the call succeeded, the username option
is set and the raw output splits on the first `|`, the two halves are
returned as username and password with ok true and no error; otherwise the
username is empty and `strResult`'s string, ok flag and error pass through. -/
def password (username : Bool) (out : List Char) (r : StrRes) :
    List Char × List Char × Bool × Option String :=
  if r.ok && username then
    match splitOnce '|' out with
    | some (u, p) => (u, p, true, none)
    | none => ([], r.str, r.ok, r.err)
  else ([], r.str, r.ok, r.err)

/-- Helper: when the separator occurs in the list, `splitOnce` returns the
separator-free prefix before its first occurrence and the remainder. -/
theorem splitOnce_of_mem (sep : Char) (l : List Char) (h : sep ∈ l) :
    ∃ u p, splitOnce sep l = some (u, p) ∧ l = u ++ sep :: p ∧ sep ∉ u := by
  induction l with
  | nil => cases h
  | cons c cs ih =>
    by_cases hc : c = sep
    · exact ⟨[], cs, by simp [splitOnce, hc], by simp [hc], by simp⟩
    · have hmem : sep ∈ cs := by
        rcases List.mem_cons.mp h with h1 | h1
        · exact absurd h1.symm hc
        · exact h1
      obtain ⟨u, p, h1, h2, h3⟩ := ih hmem
      refine ⟨c :: u, p, ?_, by simp [h2], ?_⟩
      · simp [splitOnce, hc, h1]
      · intro hin
        rcases List.mem_cons.mp hin with h4 | h4
        · exact hc h4.symm
        · exact h3 h4

/-- Helper: when the separator does not occur, `splitOnce` returns `none`
(Go's `SplitN` yields a one-element slice). -/
theorem splitOnce_of_not_mem (sep : Char) (l : List Char) (h : sep ∉ l) :
    splitOnce sep l = none := by
  induction l with
  | nil => rfl
  | cons c cs ih =>
    have hc : ¬ c = sep := fun hcs => h (hcs ▸ List.mem_cons_self c cs)
    have hcs : sep ∉ cs := fun hin => h (List.mem_cons_of_mem c hin)
    simp [splitOnce, hc, ih hcs]

/-- C6: a successful credential-dialog call (ok true) with the username
option set, whose raw output splits at a `|` (by `splitOnce_of_mem` this is
exactly the case that the output contains a `|`), decodes to a username |
password pair: the username is the (separator-free) text before the first
`|`, the password is everything after it, ok is true and the error nil. -/
theorem password_pipe (out u p : List Char) (r : StrRes)
    (hok : r.ok = true)
    (hsplit : splitOnce '|' out = some (u, p)) :
    password true out r = (u, p, true, none) ∧ out = u ++ '|' :: p ∧ '|' ∉ u := by
  have hmem : '|' ∈ out := by
    induction out generalizing u p with
    | nil => simp [splitOnce] at hsplit
    | cons c cs ih =>
      by_cases hc : c = '|'
      · simp [hc]
      · rw [splitOnce] at hsplit
        simp only [hc, if_false] at hsplit
        rcases h4 : splitOnce '|' cs with _ | hv
        · rw [h4] at hsplit
          cases hsplit
        · rcases hv with ⟨a, b⟩
          exact List.mem_cons_of_mem c (ih a b h4)
  obtain ⟨a, b, h1, h2, h3⟩ := splitOnce_of_mem '|' out hmem
  rw [h1] at hsplit
  obtain ⟨rfl, rfl⟩ : a = u ∧ b = p := by
    cases hsplit
    exact ⟨rfl, rfl⟩
  exact ⟨by simp [password, hok, h1], h2, h3⟩

/-- Witness for C6: the output `user|pa|ss` decodes into username `user`
and password `pa|ss` (split at the first separator). -/
theorem password_pipe_witness :
    password true ("user|pa|ss".toList) (strResultSpec ("user|pa|ss".toList))
      = ("user".toList, "pa|ss".toList, true, none) ∧
    "user|pa|ss".toList = "user".toList ++ '|' :: "pa|ss".toList ∧
    '|' ∉ "user".toList :=
  password_pipe ("user|pa|ss".toList) ("user".toList) ("pa|ss".toList)
    (strResultSpec ("user|pa|ss".toList)) rfl (by decide)

/-- C10: a successful credential-dialog call (modelled from the spec:
success decodes to the payload string with ok true and no error) with the
username option set, whose output contains no `|`, falls back to an empty
username with the entire output as the password, ok true and no error —
the missing separator is not reported as a failure. -/
theorem password_no_pipe (out : List Char) (hmem : '|' ∉ out) :
    password true out (strResultSpec out) = ([], out, true, none) := by
  simp [password, strResultSpec, splitOnce_of_not_mem '|' out hmem]

/-- Witness for C10: the separator-free output `secret` becomes the
password, with an empty username, ok true and no error. -/
theorem password_no_pipe_witness :
    password true ("secret".toList) (strResultSpec ("secret".toList))
      = ([], "secret".toList, true, none) :=
  password_no_pipe ("secret".toList) (by decide)

/-! ## List separator round-trip (`listResult` in main.go and the list
output parsers of the zenity library) -/

/-- Model of `strings.Join(items, sep)` for a single-character separator,
at the character level: the encoding half of the list round-trip
(`listResult` in main.go joins the selected items with
`zenutil.Separator`). -/
def joinSep (sep : Char) (items : List (List Char)) : List Char :=
  List.intercalate [sep] items

/-- Modelled from the spec: the decoding half of the list round-trip — the
zenity library's multi-selection output parsers, which are not under
`src/` — splits backend output on the configured separator
(`strings.Split`), modelled for a single-character separator. -/
def splitSep (sep : Char) (s : List Char) : List (List Char) :=
  s.splitOn sep

/-- C9 counterexample: the empty list of items (vacuously, none of its
items contains the separator) does not round-trip: joining yields the empty
string, which splits into the one-element list containing the empty item —
exactly what joining the singleton list of one empty item also yields. -/
theorem join_split_cex :
    splitSep '|' (joinSep '|' []) = [[]] ∧ ([[]] : List (List Char)) ≠ [] := by
  exact ⟨rfl, by simp⟩

/-- C9 (amended): for every non-empty list of items none of which contains
the separator character, joining the items with that separator and then
splitting the result on the same separator reproduces the original list. -/
theorem join_split_roundtrip (sep : Char) (items : List (List Char))
    (hne : items ≠ []) (hsep : ∀ l ∈ items, sep ∉ l) :
    splitSep sep (joinSep sep items) = items := by
  simpa [splitSep, joinSep, List.intercalate] using
    List.splitOn_intercalate items sep hsep hne

/-- Witness for C9's amended theorem: two concrete separator-free items
round-trip through join and split. -/
theorem join_split_roundtrip_witness :
    splitSep '|' (joinSep '|' ["ab".toList, "cd".toList]) = ["ab".toList, "cd".toList] :=
  join_split_roundtrip '|' ["ab".toList, "cd".toList] (by simp) (by decide)

end Zenity
